import Mathlib

/-!
Verification development for a multi-tenant agent platform (FastAPI service).

The embedding below translates the Python source into Lean:
* `src/utils.py`   — sliding-window rate limiter (`check_rate_limit`) and the
  simulated model call (`mock_llm_call`);
* `src/main.py`    — CRUD endpoints over tools and agents, and the execution
  pipeline (`run_agent`);
* `src/schemas.py` — request shapes (`ExecutionRequest` with its default model);
* `src/auth.py`    — credential-to-tenant lookup.

Modelling conventions: machine time (`time.time()`) is an `Int` parameter
threaded explicitly; the process-global dict `request_timestamps` becomes an
association list threaded through the functions; raising `HTTPException`
becomes returning `Except.error` paired with the untouched state (the Python
exception aborts the handler before any later write, and uncommitted ORM
changes are discarded when the session closes); the 0.5 s sleep inside
`mock_llm_call` has no observable effect on the returned value and is omitted.
-/

/-- Error taxonomy of the service.  `UnsupportedModel` and `ValidationFailure`
are both HTTP 400 in the source, distinguished by their detail strings
("Model ... is not supported" vs "One or more tools not found");
`NotFound` is 404, `RateLimitExceeded` is 429, `AuthenticationFailure` is 401. -/
inductive ApiError where
  | AuthenticationFailure
  | ValidationFailure
  | NotFound
  | RateLimitExceeded
  | UnsupportedModel
deriving DecidableEq

/-- utils.py: `RATE_LIMIT = 5  # Max 5 requests`. -/
def RATE_LIMIT : Nat := 5

/-- utils.py: `TIME_WINDOW = 60 # Per 60 seconds`. -/
def TIME_WINDOW : Int := 60

/-- The process-global dict `request_timestamps = {}` of utils.py, as an
association list from tenant id to its recorded timestamps. -/
def RateState : Type := List (String × List Int)

instance : DecidableEq RateState := by
  unfold RateState
  infer_instance

/-- utils.py line 16: `request_timestamps.get(tenant_id, [])`. -/
def getTimestamps (st : RateState) (tenant : String) : List Int :=
  (List.lookup tenant st).getD []

/-- utils.py line 26: `request_timestamps[tenant_id] = timestamps`
(dict assignment: the tenant's entry is replaced, other tenants are kept). -/
def setTimestamps (st : RateState) (tenant : String) (ts : List Int) : RateState :=
  (tenant, ts) :: st.eraseP (fun p => p.1 == tenant)

/-- utils.py `check_rate_limit`, lines 10-26.  Returns the outcome together
with the post-state of the global dict: on the `raise` path (HTTP 429) the
dict was not assigned, so the state comes back unchanged; on the admit path
the pruned list with `now` appended is stored. -/
def check_rate_limit (tenant : String) (now : Int) (st : RateState) :
    Except ApiError Unit × RateState :=
  let timestamps := getTimestamps st tenant
  let timestamps := timestamps.filter (fun t => now - t < TIME_WINDOW)
  if RATE_LIMIT ≤ timestamps.length then
    (Except.error ApiError.RateLimitExceeded, st)
  else
    (Except.ok (), setTimestamps st tenant (timestamps ++ [now]))

/-- Fixture tenant id for concrete witnesses (first tenant of auth.py's table). -/
def tenantOne : String := "tenant-1"

/-- Fixture tenant id for concrete witnesses (second tenant of auth.py's table). -/
def tenantTwo : String := "tenant-2"

/-- Fixture rate-limiter state for concrete witnesses. -/
def rateStW : RateState := [(tenantOne, [10, 20, 30])]

/-- utils.py lines 35-40: the fixed ordered list of four canned responses. -/
def responses : List String := [
  "I have analyzed the data and found significant trends.",
  "Based on your request, I have executed the necessary tools.",
  "Here is the summary you requested based on the provided context.",
  "The calculation is complete. The result is within expected parameters."]

/-- utils.py `mock_llm_call`, lines 28-44: `index = len(prompt) %
len(responses)`, returning the f-string built from the model name and the
selected canned response (the 0.5 s sleep is unobservable in the value). -/
def mock_llm_call (prompt model : String) : String :=
  let index := prompt.length % responses.length
  ("[") ++ model ++ (" Response]: ") ++ responses.getD index ("")

/-- main.py lines 317-322: the final prompt assembled inside `run_agent`,
factored out as the Prompt Composer of the spec.  `tool_list` is the tool
names joined by a comma-space, in stored order. -/
def compose (agent_name agent_role agent_description : String)
    (tool_names : List String) (user_task : String) : String :=
  let tool_list := String.intercalate (", ") tool_names
  ("System: You are ") ++ agent_name ++ (", a ") ++ agent_role ++ (". ") ++
    agent_description ++ (". You have access to these tools: [") ++ tool_list ++
    ("].\nUser Task: ") ++ user_task

/-- models.py `Tool`: one row of the `tools` table. -/
structure Tool where
  id : Nat
  tenant_id : String
  name : String
  description : String
deriving DecidableEq

/-- models.py `Agent`: one row of the `agents` table; `tools` holds the
associated tool ids in stored `agent_tools` association order. -/
structure Agent where
  id : Nat
  tenant_id : String
  name : String
  role : String
  description : String
  tools : List Nat
deriving DecidableEq

/-- models.py `AgentExecution`: one row of `agent_executions` (the surrogate
primary key and creation timestamp play no role in any claim). -/
structure Execution where
  tenant_id : String
  agent_id : Nat
  prompt : String
  model : String
  response : String
deriving DecidableEq

/-- The relational store: the three tables, rows in insertion order. -/
structure DB where
  tools : List Tool
  agents : List Agent
  executions : List Execution
deriving DecidableEq

/-- schemas.py `ToolUpdate`. -/
structure ToolUpdate where
  name : Option String
  description : Option String

/-- schemas.py `AgentCreate`. -/
structure AgentCreate where
  name : String
  role : String
  description : String
  tool_ids : List Nat

/-- schemas.py `AgentUpdate`. -/
structure AgentUpdate where
  name : Option String
  role : Option String
  description : Option String
  tool_ids : Option (List Nat)

/-- schemas.py `ExecutionRequest`: `model: Optional[str] = "gpt-4o"`.
A `none` model represents an explicit JSON `null` in the body. -/
structure ExecutionRequest where
  prompt : String
  model : Option String

/-- A request body that omits the `model` field entirely: pydantic fills in
the declared default value (schemas.py line 48). -/
def ExecutionRequest.ofPrompt (p : String) : ExecutionRequest :=
  { prompt := p, model := some ("gpt-4o") }

/-- auth.py `API_KEYS`. -/
def API_KEYS : List (String × String) := [
  ("sk-key-123", "tenant-1"),
  ("sk-key-456", "tenant-2"),
  ("sk-key-admin", "admin-tenant")]

/-- auth.py `get_current_tenant`: resolve the `X-API-Key` header, HTTP 401
when the key is unrecognized. -/
def get_current_tenant (x_api_key : String) : Except ApiError String :=
  match List.lookup x_api_key API_KEYS with
  | some t => Except.ok t
  | none => Except.error ApiError.AuthenticationFailure

/-- Whether `needle` occurs at the head of `hay` (helper for the substring
test behind the SQL `contains` filters). -/
def listStartsWith : List Char → List Char → Bool
  | _, [] => true
  | [], _ :: _ => false
  | a :: hay, b :: needle => a == b && listStartsWith hay needle

/-- Whether `needle` occurs somewhere inside `hay`. -/
def listHasSub : List Char → List Char → Bool
  | [], needle => needle.isEmpty
  | a :: hay, needle => listStartsWith (a :: hay) needle || listHasSub hay needle

/-- SQLAlchemy `Column.contains(x)` compiles to SQL `LIKE %x%`: a substring
test. -/
def strContains (hay needle : String) : Bool :=
  listHasSub hay.data needle.data

/-- main.py `read_tools` (lines 38-56): the tenant's tools under the optional
filters.  Python truthiness: an absent or empty filter string applies no
filter.  The `agent_name` filter is the join over `Tool.agents` with
`Agent.name == agent_name`; join row multiplicity is immaterial here and each
qualifying tool is kept once. -/
def read_tools (name agent_name : Option String) (tenant : String) (db : DB) : List Tool :=
  let q := db.tools.filter (fun t => t.tenant_id == tenant)
  let q := match name with
    | some n => if n.isEmpty then q else q.filter (fun t => strContains t.name n)
    | none => q
  match agent_name with
  | some an =>
      if an.isEmpty then q
      else q.filter (fun t => db.agents.any (fun a => a.tools.contains t.id && a.name == an))
  | none => q

/-- The two optional field writes of main.py `update_tool`, lines 84-87. -/
def applyToolUpdate (upd : ToolUpdate) (t : Tool) : Tool :=
  let t := match upd.name with
    | some n => { t with name := n }
    | none => t
  match upd.description with
  | some d => { t with description := d }
  | none => t

/-- main.py `update_tool` (lines 58-91): find the row scoped to the tenant,
HTTP 404 when absent, otherwise apply the optional field updates and commit;
the matched row is replaced in place. -/
def update_tool (tool_id : Nat) (upd : ToolUpdate) (tenant : String) (db : DB) :
    Except ApiError Tool × DB :=
  match db.tools.find? (fun t => t.id == tool_id && t.tenant_id == tenant) with
  | none => (Except.error ApiError.NotFound, db)
  | some t =>
      (Except.ok (applyToolUpdate upd t),
        { db with tools := db.tools.map (fun u =>
            if u.id == tool_id && u.tenant_id == tenant then applyToolUpdate upd u else u) })

/-- main.py `delete_tool` (lines 93-114): find scoped to the tenant, HTTP 404
when absent, otherwise delete the row; SQLAlchemy also removes the
`agent_tools` association rows referencing the deleted tool. -/
def delete_tool (tool_id : Nat) (tenant : String) (db : DB) :
    Except ApiError Unit × DB :=
  match db.tools.find? (fun t => t.id == tool_id && t.tenant_id == tenant) with
  | none => (Except.error ApiError.NotFound, db)
  | some _ =>
      (Except.ok (),
        { db with
            tools := db.tools.filter (fun t => !(t.id == tool_id && t.tenant_id == tenant)),
            agents := db.agents.map (fun a =>
              { a with tools := a.tools.filter (fun i => !(i == tool_id)) }) })

/-- The fresh primary key of an insert (SQLite autoincrement). -/
def nextId (ids : List Nat) : Nat := ids.foldr max 0 + 1

/-- main.py `create_agent` (lines 120-150): when `tool_ids` is non-empty
(Python truthiness on the list), query the tenant's tools with id in the list
and require exactly as many rows as the list has entries (HTTP 400
otherwise); then insert the new agent with those tools attached. -/
def create_agent (agent : AgentCreate) (tenant : String) (db : DB) :
    Except ApiError Agent × DB :=
  if agent.tool_ids.isEmpty then
    let a : Agent :=
      { id := nextId (db.agents.map Agent.id), tenant_id := tenant,
        name := agent.name, role := agent.role, description := agent.description,
        tools := [] }
    (Except.ok a, { db with agents := db.agents ++ [a] })
  else
    let tools := db.tools.filter (fun t => agent.tool_ids.contains t.id && t.tenant_id == tenant)
    if tools.length ≠ agent.tool_ids.length then
      (Except.error ApiError.ValidationFailure, db)
    else
      let a : Agent :=
        { id := nextId (db.agents.map Agent.id), tenant_id := tenant,
          name := agent.name, role := agent.role, description := agent.description,
          tools := tools.map Tool.id }
      (Except.ok a, { db with agents := db.agents ++ [a] })

/-- main.py `read_agents` (lines 152-178): the tenant's agents under the
optional filters, with the same conventions as `read_tools`. -/
def read_agents (name role tool_name : Option String) (tenant : String) (db : DB) : List Agent :=
  let q := db.agents.filter (fun a => a.tenant_id == tenant)
  let q := match name with
    | some n => if n.isEmpty then q else q.filter (fun a => strContains a.name n)
    | none => q
  let q := match role with
    | some r => if r.isEmpty then q else q.filter (fun a => strContains a.role r)
    | none => q
  match tool_name with
  | some tn =>
      if tn.isEmpty then q
      else q.filter (fun a => db.tools.any (fun t => a.tools.contains t.id && t.name == tn))
  | none => q

/-- main.py `read_single_agent` (lines 180-199): fetch by id scoped to the
tenant, HTTP 404 when absent. -/
def read_single_agent (agent_id : Nat) (tenant : String) (db : DB) : Except ApiError Agent :=
  match db.agents.find? (fun a => a.id == agent_id && a.tenant_id == tenant) with
  | none => Except.error ApiError.NotFound
  | some a => Except.ok a

/-- The three optional field writes of main.py `update_agent`, lines 227-232. -/
def applyAgentFieldUpdates (upd : AgentUpdate) (a : Agent) : Agent :=
  let a := match upd.name with
    | some n => { a with name := n }
    | none => a
  let a := match upd.role with
    | some r => { a with role := r }
    | none => a
  match upd.description with
  | some d => { a with description := d }
  | none => a

/-- main.py `update_agent` (lines 201-250): find scoped to the tenant,
HTTP 404 when absent; apply optional field updates; when `tool_ids` is
provided, query the tenant's matching tools, require exactly as many rows as
the list has entries (HTTP 400 otherwise, in which case nothing is committed
and the session is discarded), and replace the tool set. -/
def update_agent (agent_id : Nat) (upd : AgentUpdate) (tenant : String) (db : DB) :
    Except ApiError Agent × DB :=
  match db.agents.find? (fun a => a.id == agent_id && a.tenant_id == tenant) with
  | none => (Except.error ApiError.NotFound, db)
  | some a =>
      match upd.tool_ids with
      | none =>
          (Except.ok (applyAgentFieldUpdates upd a),
            { db with agents := db.agents.map (fun b =>
                if b.id == agent_id && b.tenant_id == tenant then
                  applyAgentFieldUpdates upd b
                else b) })
      | some tids =>
          let tools := db.tools.filter (fun t => tids.contains t.id && t.tenant_id == tenant)
          if tools.length ≠ tids.length then
            (Except.error ApiError.ValidationFailure, db)
          else
            (Except.ok { applyAgentFieldUpdates upd a with tools := tools.map Tool.id },
              { db with agents := db.agents.map (fun b =>
                  if b.id == agent_id && b.tenant_id == tenant then
                    { applyAgentFieldUpdates upd b with tools := tools.map Tool.id }
                  else b) })

/-- main.py `delete_agent` (lines 252-274): find scoped to the tenant,
HTTP 404 when absent, otherwise delete the row. -/
def delete_agent (agent_id : Nat) (tenant : String) (db : DB) :
    Except ApiError Unit × DB :=
  match db.agents.find? (fun a => a.id == agent_id && a.tenant_id == tenant) with
  | none => (Except.error ApiError.NotFound, db)
  | some _ =>
      (Except.ok (),
        { db with agents := db.agents.filter (fun a =>
            !(a.id == agent_id && a.tenant_id == tenant)) })

/-- main.py `read_history` (lines 336-350): tenant-scoped execution history
with offset/limit pagination. -/
def read_history (skip limit : Nat) (tenant : String) (db : DB) : List Execution :=
  ((db.executions.filter (fun e => e.tenant_id == tenant)).drop skip).take limit

/-- Combined mutable state of the service: the relational store plus the
rate limiter's global dict. -/
structure AppState where
  db : DB
  rate : RateState
deriving DecidableEq

/-- main.py line 303: `SUPPORTED_MODELS = ["gpt-4o", "gemini-3"]`. -/
def SUPPORTED_MODELS : List String := ["gpt-4o", "gemini-3"]

/-- The relationship load `agent.tools` of models.py: resolve the agent's
associated tool ids to rows and take their names, in stored association
order. -/
def agentToolNames (db : DB) (a : Agent) : List String :=
  a.tools.filterMap (fun tid => (db.tools.find? (fun t => t.id == tid)).map Tool.name)

/-- The successful payload of main.py `run_agent`, line 333. -/
structure RunResult where
  agent : String
  final_prompt : String
  response : String
deriving DecidableEq

/-- main.py `run_agent` (lines 305-333), the Execution Pipeline: model
allow-list check (Python `model not in SUPPORTED_MODELS`, where a `null`
model is also not a member), then the rate-limiter check, then the
tenant-scoped agent lookup, then prompt composition, the simulated call, and
persistence of the execution row. -/
def run_agent (agent_id : Nat) (req : ExecutionRequest) (tenant : String)
    (now : Int) (st : AppState) : Except ApiError RunResult × AppState :=
  match req.model with
  | none => (Except.error ApiError.UnsupportedModel, st)
  | some m =>
    if m ∉ SUPPORTED_MODELS then
      (Except.error ApiError.UnsupportedModel, st)
    else
      match check_rate_limit tenant now st.rate with
      | (Except.error e, rate1) => (Except.error e, { st with rate := rate1 })
      | (Except.ok _, rate1) =>
        match st.db.agents.find? (fun a => a.id == agent_id && a.tenant_id == tenant) with
        | none => (Except.error ApiError.NotFound, { st with rate := rate1 })
        | some agent =>
          let final_prompt := compose agent.name agent.role agent.description
            (agentToolNames st.db agent) req.prompt
          let response_text := mock_llm_call final_prompt m
          let execution : Execution :=
            { tenant_id := tenant, agent_id := agent.id,
              prompt := final_prompt, model := m, response := response_text }
          (Except.ok
              { agent := agent.name, final_prompt := final_prompt,
                response := response_text },
            { db := { st.db with executions := st.db.executions ++ [execution] },
              rate := rate1 })

/-- One in-flight `check_rate_limit` call for a fixed tenant, split at the
only shared-memory accesses in utils.py: the read of the tenant's list
(line 16) and the write-back of the updated list (line 26).  Nothing in the
source serializes these two accesses. -/
inductive CheckPhase where
  | ready
  | readDone (snapshot : List Int)
  | finished (admitted : Bool)
deriving DecidableEq

/-- Advance one call by a single step against the shared stored list: from
`ready`, read the list; from `readDone`, perform the local pruning and the
conditional append exactly as `check_rate_limit` does, writing back only on
admission. -/
def checkStep (now : Int) : CheckPhase × List Int → CheckPhase × List Int
  | (CheckPhase.ready, stored) => (CheckPhase.readDone stored, stored)
  | (CheckPhase.readDone snap, stored) =>
      let kept := snap.filter (fun t => now - t < TIME_WINDOW)
      if RATE_LIMIT ≤ kept.length then (CheckPhase.finished false, stored)
      else (CheckPhase.finished true, kept ++ [now])
  | (CheckPhase.finished b, stored) => (CheckPhase.finished b, stored)

/-- Two concurrent `check_rate_limit` calls of the same tenant racing on the
shared list. -/
structure TwoCheckState where
  stored : List Int
  callA : CheckPhase
  callB : CheckPhase
deriving DecidableEq

/-- Schedule one step of the first call. -/
def stepA (now : Int) (s : TwoCheckState) : TwoCheckState :=
  { s with callA := (checkStep now (s.callA, s.stored)).1,
           stored := (checkStep now (s.callA, s.stored)).2 }

/-- Schedule one step of the second call. -/
def stepB (now : Int) (s : TwoCheckState) : TwoCheckState :=
  { s with callB := (checkStep now (s.callB, s.stored)).1,
           stored := (checkStep now (s.callB, s.stored)).2 }

/-- Fixture tool owned by tenant-2, for the cross-tenant witnesses. -/
def toolB : Tool :=
  { id := 1, tenant_id := tenantTwo, name := "Search",
    description := "Searching tool" }

/-- Fixture agent owned by tenant-2, for the cross-tenant witnesses. -/
def agentB : Agent :=
  { id := 1, tenant_id := tenantTwo, name := "Bravo",
    role := "Tester", description := "Tests things", tools := [] }

/-- Fixture database in which every resource is owned by tenant-2. -/
def dbW : DB := { tools := [toolB], agents := [agentB], executions := [] }

/-- Fixture agent owned by tenant-1, for the pipeline witnesses. -/
def agentA : Agent :=
  { id := 1, tenant_id := tenantOne, name := "Math Bot",
    role := "Math", description := "Does math", tools := [] }

/-- Fixture application state holding one tenant-1 agent and an empty rate
map. -/
def stW : AppState :=
  { db := { tools := [], agents := [agentA], executions := [] },
    rate := [] }

/-- Fixture application state with no agents at all. -/
def stEmpty : AppState :=
  { db := { tools := [], agents := [], executions := [] },
    rate := [] }

/-- Fixture model name: the default model. -/
def modelGpt : String := "gpt-4o"

/-- Fixture run request naming a model outside the allow-list. -/
def reqBadModel : ExecutionRequest := { prompt := "x", model := some ("claude") }

/-- Fixture run request with a supported model. -/
def reqGood : ExecutionRequest := { prompt := "hi", model := some ("gpt-4o") }

/-- Fixture tool owned by tenant-1. -/
def toolA : Tool :=
  { id := 1, tenant_id := tenantOne, name := "Calc",
    description := "Calculator" }

/-- Fixture database holding one tenant-1 tool and one tenant-1 agent. -/
def dbA : DB := { tools := [toolA], agents := [agentA], executions := [] }

/-- Fixture agent-creation request whose tool id list repeats an existing
tool id. -/
def acDup : AgentCreate :=
  { name := "A", role := "R", description := "D", tool_ids := [1, 1] }

theorem getTimestamps_set (st : RateState) (tenant : String) (ts : List Int) :
    getTimestamps (setTimestamps st tenant ts) tenant = ts := by
  simp [getTimestamps, setTimestamps, List.lookup]

theorem filter_window_eq_spec_filter (now : Int) (ts : List Int) :
    ts.filter (fun t => now - t < TIME_WINDOW)
      = ts.filter (fun t => !(TIME_WINDOW ≤ now - t)) := by
  apply List.filter_congr
  intro t _
  simp only [← decide_not, decide_eq_decide]
  omega

/-- C1: for every tenant and time `now`, the rate-limiter check retrieves the
tenant's timestamp sequence (empty for an unseen tenant), discards exactly the
entries `t` with `now - t ≥ TIME_WINDOW` (boundary entries `now - t =
TIME_WINDOW` are excluded), then rejects with `RateLimitExceeded` leaving the
state unchanged (so `now` is not recorded) when the remaining count is at
least `RATE_LIMIT`, and otherwise appends `now`, persists the sequence, and
admits; in particular the first request of an unseen tenant admits. -/
theorem c1_check_rate_limit_spec (tenant : String) (now : Int) (st : RateState) :
    ((getTimestamps st tenant).filter (fun t => now - t < TIME_WINDOW)
        = (getTimestamps st tenant).filter (fun t => !(TIME_WINDOW ≤ now - t))) ∧
    (∀ t ∈ getTimestamps st tenant, now - t = TIME_WINDOW →
        t ∉ (getTimestamps st tenant).filter (fun t => now - t < TIME_WINDOW)) ∧
    (RATE_LIMIT ≤ ((getTimestamps st tenant).filter (fun t => now - t < TIME_WINDOW)).length →
        check_rate_limit tenant now st = (Except.error ApiError.RateLimitExceeded, st)) ∧
    (((getTimestamps st tenant).filter (fun t => now - t < TIME_WINDOW)).length < RATE_LIMIT →
        check_rate_limit tenant now st
          = (Except.ok (), setTimestamps st tenant
              ((getTimestamps st tenant).filter (fun t => now - t < TIME_WINDOW) ++ [now]))) ∧
    (getTimestamps st tenant = [] →
        check_rate_limit tenant now st = (Except.ok (), setTimestamps st tenant [now])) := by
  refine ⟨filter_window_eq_spec_filter now (getTimestamps st tenant), ?_, ?_, ?_, ?_⟩
  · intro t _ hbd hmem
    have := List.of_mem_filter hmem
    simp at this
    omega
  · intro hge
    simp only [check_rate_limit]
    rw [if_pos hge]
  · intro hlt
    simp only [check_rate_limit]
    rw [if_neg (by omega)]
  · intro hempty
    simp only [check_rate_limit, hempty]
    rw [if_neg (by simp [RATE_LIMIT])]
    simp

theorem c1_check_rate_limit_spec_witness :
    check_rate_limit tenantOne 100 [] = (Except.ok (), setTimestamps [] tenantOne [100]) :=
  (c1_check_rate_limit_spec tenantOne 100 []).2.2.2.2 rfl

/-- C4: if every stored timestamp of the tenant is in the past (at most
`now`), then after pruning the sequence holds only timestamps within
`[now - TIME_WINDOW, now]`, and after a successful admission the stored
sequence again holds only timestamps within that interval and its length is
at most `RATE_LIMIT`. -/
theorem c4_rate_limiter_invariant (tenant : String) (now : Int) (st : RateState)
    (hpast : ∀ t ∈ getTimestamps st tenant, t ≤ now) :
    (∀ t ∈ (getTimestamps st tenant).filter (fun t => now - t < TIME_WINDOW),
        now - TIME_WINDOW ≤ t ∧ t ≤ now) ∧
    (∀ st', check_rate_limit tenant now st = (Except.ok (), st') →
        (∀ t ∈ getTimestamps st' tenant, now - TIME_WINDOW ≤ t ∧ t ≤ now) ∧
        (getTimestamps st' tenant).length ≤ RATE_LIMIT) := by
  have hkept : ∀ t ∈ (getTimestamps st tenant).filter (fun t => now - t < TIME_WINDOW),
      now - TIME_WINDOW ≤ t ∧ t ≤ now := by
    intro t ht
    have hmem := List.mem_of_mem_filter ht
    have hf := List.of_mem_filter ht
    simp at hf
    exact ⟨by omega, hpast t hmem⟩
  refine ⟨hkept, ?_⟩
  intro st' hok
  simp only [check_rate_limit] at hok
  split at hok
  · exact absurd (congrArg Prod.fst hok) (by simp)
  · rename_i hlen
    have hst' : st' = setTimestamps st tenant
        ((getTimestamps st tenant).filter (fun t => now - t < TIME_WINDOW) ++ [now]) :=
      (congrArg Prod.snd hok).symm
    subst hst'
    rw [getTimestamps_set]
    constructor
    · intro t ht
      rcases List.mem_append.1 ht with hk | hn
      · exact hkept t hk
      · have : t = now := by simpa using hn
        subst this
        refine ⟨by simp [TIME_WINDOW], le_refl _⟩
    · rw [List.length_append]
      simp only [List.length_singleton]
      omega

theorem c4_rate_limiter_invariant_witness :
    (∀ t ∈ (getTimestamps rateStW tenantOne).filter (fun t => (50 : Int) - t < TIME_WINDOW),
        (50 : Int) - TIME_WINDOW ≤ t ∧ t ≤ 50) ∧
    (∀ st', check_rate_limit tenantOne 50 rateStW = (Except.ok (), st') →
        (∀ t ∈ getTimestamps st' tenantOne, (50 : Int) - TIME_WINDOW ≤ t ∧ t ≤ 50) ∧
        (getTimestamps st' tenantOne).length ≤ RATE_LIMIT) :=
  c4_rate_limiter_invariant tenantOne 50 rateStW (by decide)

/-- C5: the composed prompt is byte-for-byte the specified template
(`System: You are {name}, a {role}. {description}. You have access to these
tools: [{tool names joined by comma-space}].` newline `User Task: {task}`);
the tool names appear joined in the given stored order, and an empty tool
list renders the bracket group as a bare pair of brackets. -/
theorem c5_compose_template :
    (∀ n r d task : String, ∀ ts : List String,
        compose n r d ts task
          = ("System: You are ") ++ n ++ (", a ") ++ r ++ (". ") ++ d ++
            (". You have access to these tools: [") ++
            String.intercalate (", ") ts ++ ("].\nUser Task: ") ++ task) ∧
    (("[") ++ String.intercalate (", ") ([] : List String) ++ ("]") = ("[]")) ∧
    (∀ a b : String, String.intercalate (", ") [a, b] = a ++ (", ") ++ b) := by
  refine ⟨fun n r d task ts => rfl, rfl, fun a b => rfl⟩

/-- C6: `mock_llm_call p m` equals the f-string built from `m` and the canned
response selected at index `p.length % 4` of the fixed four-element list, and
is therefore a pure function of `(p.length mod 4, m)`: two prompts of equal
length modulo 4 under the same model yield identical output. -/
theorem c6_mock_llm_call_spec :
    (∀ p m : String,
        mock_llm_call p m
          = ("[") ++ m ++ (" Response]: ") ++ responses.getD (p.length % 4) ("")) ∧
    (∀ p q m : String, p.length % 4 = q.length % 4 →
        mock_llm_call p m = mock_llm_call q m) := by
  constructor
  · intro p m
    rfl
  · intro p q m h
    simp only [mock_llm_call]
    rw [show responses.length = 4 from rfl, h]

theorem c6_mock_llm_call_spec_witness :
    mock_llm_call tenantOne modelGpt = mock_llm_call tenantTwo modelGpt :=
  c6_mock_llm_call_spec.2 tenantOne tenantTwo modelGpt rfl

theorem check_rate_limit_error (tenant : String) (now : Int) (st : RateState)
    (e : ApiError) (st' : RateState)
    (h : check_rate_limit tenant now st = (Except.error e, st')) :
    e = ApiError.RateLimitExceeded ∧ st' = st := by
  simp only [check_rate_limit] at h
  split at h
  · injection h with h1 h2
    injection h1 with h1
    exact ⟨h1.symm, h2.symm⟩
  · injection h with h1 h2
    injection h1

/-- C3: a run request whose model is outside the allow-list fails with
`UnsupportedModel` and leaves the whole state untouched: the rate limiter is
never consulted (its state for the tenant is unchanged), no execution row is
created, and even when the named agent does not exist the model error is
returned rather than `NotFound`. -/
theorem c3_unsupported_model_first (agent_id : Nat) (req : ExecutionRequest)
    (tenant : String) (now : Int) (st : AppState)
    (h : ∀ m, req.model = some m → m ∉ SUPPORTED_MODELS) :
    run_agent agent_id req tenant now st = (Except.error ApiError.UnsupportedModel, st) := by
  obtain ⟨p, mo⟩ := req
  cases mo with
  | none => rfl
  | some m =>
    have hm : m ∉ SUPPORTED_MODELS := h m rfl
    simp only [run_agent]
    rw [if_pos hm]

theorem c3_unsupported_model_first_witness :
    run_agent 99 reqBadModel tenantOne 0 stEmpty
      = (Except.error ApiError.UnsupportedModel, stEmpty) :=
  c3_unsupported_model_first 99 reqBadModel tenantOne 0 stEmpty
    (fun m hm => by
      have hme : ("claude") = m := by
        simpa [reqBadModel] using hm
      subst hme
      decide)

/-- C2 (amended): on every failing run the relational store is unchanged — in
particular no execution row and no tool or agent row is written — and a
failure with `UnsupportedModel` or `RateLimitExceeded` leaves the entire
state, rate-limiter map included, unchanged.  (A `NotFound` failure occurs
after admission and leaves the appended rate-limiter timestamp behind; see
the counterexample theorem.) -/
theorem c2_failing_run_leaves_db_unchanged (agent_id : Nat) (req : ExecutionRequest)
    (tenant : String) (now : Int) (st : AppState) (e : ApiError) (st' : AppState)
    (h : run_agent agent_id req tenant now st = (Except.error e, st')) :
    st'.db = st.db ∧
    ((e = ApiError.UnsupportedModel ∨ e = ApiError.RateLimitExceeded) → st' = st) := by
  obtain ⟨p, mo⟩ := req
  cases mo with
  | none =>
    simp only [run_agent] at h
    injection h with h1 h2
    subst h2
    exact ⟨rfl, fun _ => rfl⟩
  | some m =>
    simp only [run_agent] at h
    by_cases hm : m ∈ SUPPORTED_MODELS
    · rw [if_neg (not_not_intro hm)] at h
      rcases hc : check_rate_limit tenant now st.rate with ⟨r, rate1⟩
      rw [hc] at h
      cases r with
      | error e1 =>
        simp only [] at h
        injection h with h1 h2
        injection h1 with h1
        obtain ⟨he1, hr1⟩ := check_rate_limit_error tenant now st.rate e1 rate1 hc
        subst h1
        subst h2
        subst hr1
        exact ⟨rfl, fun _ => rfl⟩
      | ok u =>
        cases hf : st.db.agents.find? (fun a => a.id == agent_id && a.tenant_id == tenant) with
        | none =>
          rw [hf] at h
          simp only [] at h
          injection h with h1 h2
          injection h1 with h1
          subst h1
          subst h2
          refine ⟨rfl, fun hdisj => ?_⟩
          rcases hdisj with h' | h' <;> exact absurd h' (by simp)
        | some agent =>
          rw [hf] at h
          simp only [] at h
          injection h with h1 h2
          injection h1
    · rw [if_pos hm] at h
      injection h with h1 h2
      injection h1 with h1
      subst h2
      exact ⟨rfl, fun _ => rfl⟩

theorem c2_failing_run_leaves_db_unchanged_witness :
    stEmpty.db = stEmpty.db ∧
    ((ApiError.UnsupportedModel = ApiError.UnsupportedModel ∨
        ApiError.UnsupportedModel = ApiError.RateLimitExceeded) → stEmpty = stEmpty) :=
  c2_failing_run_leaves_db_unchanged 99 reqBadModel tenantOne 0 stEmpty
    ApiError.UnsupportedModel stEmpty (by rfl)

/-- C2 counterexample: a failing run — supported model, rate limiter admits,
agent absent — returns `NotFound` yet leaves a rate-limiter state write
behind: the admitted timestamp is recorded for the tenant although the run
failed, refuting "no state write behind" for every failing run. -/
theorem c2_not_found_leaves_rate_write :
    (run_agent 1 reqGood tenantOne 0 stEmpty).1 = Except.error ApiError.NotFound ∧
    (run_agent 1 reqGood tenantOne 0 stEmpty).2 ≠ stEmpty ∧
    getTimestamps (run_agent 1 reqGood tenantOne 0 stEmpty).2.rate tenantOne = [0] := by
  refine ⟨rfl, by decide, rfl⟩

/-- C9: a run request that omits the model field carries the declared default
model, a member of the allow-list, so the `UnsupportedModel` failure is
unreachable and a successful run appends exactly one execution row whose
model field is the default model name. -/
theorem c9_default_model (agent_id : Nat) (p : String) (tenant : String)
    (now : Int) (st : AppState) :
    (run_agent agent_id (ExecutionRequest.ofPrompt p) tenant now st).1
        ≠ Except.error ApiError.UnsupportedModel ∧
    (∀ r st', run_agent agent_id (ExecutionRequest.ofPrompt p) tenant now st
        = (Except.ok r, st') →
      ∃ e, st'.db.executions = st.db.executions ++ [e] ∧ e.model = ("gpt-4o")) := by
  simp only [run_agent, ExecutionRequest.ofPrompt]
  rw [if_neg (by decide)]
  rcases hc : check_rate_limit tenant now st.rate with ⟨r, rate1⟩
  cases r with
  | error e1 =>
    obtain ⟨he1, _⟩ := check_rate_limit_error tenant now st.rate e1 rate1 hc
    subst he1
    constructor
    · simp
    · intro r' st' h
      injection h with h1 h2
      injection h1
  | ok u =>
    cases hf : st.db.agents.find? (fun a => a.id == agent_id && a.tenant_id == tenant) with
    | none =>
      constructor
      · simp
      · intro r' st' h
        injection h with h1 h2
        injection h1
    | some agent =>
      constructor
      · simp
      · intro r' st' h
        injection h with h1 h2
        subst h2
        exact ⟨_, rfl, rfl⟩

theorem c9_default_model_witness :
    (run_agent 1 (ExecutionRequest.ofPrompt ("hi")) tenantOne 0 stW).1
        ≠ Except.error ApiError.UnsupportedModel ∧
    ∃ e, (run_agent 1 (ExecutionRequest.ofPrompt ("hi")) tenantOne 0 stW).2.db.executions
        = stW.db.executions ++ [e] ∧ e.model = ("gpt-4o") := by
  have h := c9_default_model 1 ("hi") tenantOne 0 stW
  exact ⟨h.1, h.2 _ _ rfl⟩

theorem find?_cross_tenant {α : Type} (idf : α → Nat) (tf : α → String)
    (A B : String) (hAB : A ≠ B) (l : List α)
    (hids : (l.map idf).Nodup) (x : α) (hx : x ∈ l) (hB : tf x = B) :
    l.find? (fun u => idf u == idf x && tf u == A) = none := by
  rw [List.find?_eq_none]
  intro u hu
  simp only [Bool.and_eq_true, beq_iff_eq]
  rintro ⟨hid, hten⟩
  have hux : u = x := List.inj_on_of_nodup_map hids hu hx hid
  subst hux
  exact hAB (by rw [← hten, hB])

theorem tenant_of_mem_filter {α : Type} (tf : α → String) {l : List α}
    {tenant : String} {x : α} (h : x ∈ l.filter (fun u => tf u == tenant)) :
    tf x = tenant := by
  have := List.of_mem_filter h
  simpa using this

/-- C7: cross-tenant isolation.  With globally unique primary keys, a request
authenticated as tenant `A` can never read, update, or delete a resource
owned by a different tenant `B`: each by-id operation on `B`'s resource
returns `NotFound` (never `AuthenticationFailure`) and leaves the store
unchanged, and the list operations return only rows owned by `A`, hence never
`B`'s tools, agents, or executions. -/
theorem c7_cross_tenant_isolation (A B : String) (hAB : A ≠ B) (db : DB)
    (htools : (db.tools.map Tool.id).Nodup) (hagents : (db.agents.map Agent.id).Nodup) :
    (∀ ag ∈ db.agents, ag.tenant_id = B →
        read_single_agent ag.id A db = Except.error ApiError.NotFound) ∧
    (∀ t ∈ db.tools, t.tenant_id = B → ∀ upd,
        update_tool t.id upd A db = (Except.error ApiError.NotFound, db)) ∧
    (∀ t ∈ db.tools, t.tenant_id = B →
        delete_tool t.id A db = (Except.error ApiError.NotFound, db)) ∧
    (∀ ag ∈ db.agents, ag.tenant_id = B → ∀ upd,
        update_agent ag.id upd A db = (Except.error ApiError.NotFound, db)) ∧
    (∀ ag ∈ db.agents, ag.tenant_id = B →
        delete_agent ag.id A db = (Except.error ApiError.NotFound, db)) ∧
    (∀ nf af, ∀ t ∈ read_tools nf af A db, t.tenant_id = A) ∧
    (∀ nf rolef toolf, ∀ ag ∈ read_agents nf rolef toolf A db, ag.tenant_id = A) ∧
    (∀ skip limit, ∀ e ∈ read_history skip limit A db, e.tenant_id = A) := by
  refine ⟨?_, ?_, ?_, ?_, ?_, ?_, ?_, ?_⟩
  · intro ag hag hB
    simp only [read_single_agent]
    rw [find?_cross_tenant Agent.id Agent.tenant_id A B hAB db.agents hagents ag hag hB]
  · intro t ht hB upd
    simp only [update_tool]
    rw [find?_cross_tenant Tool.id Tool.tenant_id A B hAB db.tools htools t ht hB]
  · intro t ht hB
    simp only [delete_tool]
    rw [find?_cross_tenant Tool.id Tool.tenant_id A B hAB db.tools htools t ht hB]
  · intro ag hag hB upd
    simp only [update_agent]
    rw [find?_cross_tenant Agent.id Agent.tenant_id A B hAB db.agents hagents ag hag hB]
  · intro ag hag hB
    simp only [delete_agent]
    rw [find?_cross_tenant Agent.id Agent.tenant_id A B hAB db.agents hagents ag hag hB]
  · intro nf af t ht
    rcases nf with _ | n <;> rcases af with _ | an <;>
      simp only [read_tools] at ht <;>
      repeat' split at ht
    all_goals
      first
        | exact tenant_of_mem_filter Tool.tenant_id ht
        | exact tenant_of_mem_filter Tool.tenant_id (List.mem_of_mem_filter ht)
        | exact tenant_of_mem_filter Tool.tenant_id
            (List.mem_of_mem_filter (List.mem_of_mem_filter ht))
  · intro nf rolef toolf ag hag
    rcases nf with _ | n <;> rcases rolef with _ | r <;> rcases toolf with _ | tn <;>
      simp only [read_agents] at hag <;>
      repeat' split at hag
    all_goals
      first
        | exact tenant_of_mem_filter Agent.tenant_id hag
        | exact tenant_of_mem_filter Agent.tenant_id (List.mem_of_mem_filter hag)
        | exact tenant_of_mem_filter Agent.tenant_id
            (List.mem_of_mem_filter (List.mem_of_mem_filter hag))
        | exact tenant_of_mem_filter Agent.tenant_id
            (List.mem_of_mem_filter (List.mem_of_mem_filter (List.mem_of_mem_filter hag)))
  · intro skip limit e he
    simp only [read_history] at he
    have h1 := (List.take_sublist _ _).subset he
    have h2 := (List.drop_sublist _ _).subset h1
    exact tenant_of_mem_filter Execution.tenant_id h2

theorem c7_cross_tenant_isolation_witness :
    read_single_agent 1 tenantOne dbW = Except.error ApiError.NotFound ∧
    update_tool 1 { name := none, description := none } tenantOne dbW
      = (Except.error ApiError.NotFound, dbW) ∧
    delete_tool 1 tenantOne dbW = (Except.error ApiError.NotFound, dbW) := by
  have h := c7_cross_tenant_isolation tenantOne tenantTwo (by decide) dbW
    (by decide) (by decide)
  exact ⟨h.1 agentB (by decide) rfl,
    h.2.1 toolB (by decide) rfl { name := none, description := none },
    h.2.2.1 toolB (by decide) rfl⟩

theorem nodup_subset_length_lt {xs tids : List Nat} (hx : xs.Nodup)
    (hsub : ∀ a ∈ xs, a ∈ tids) (hdup : ¬ tids.Nodup) : xs.length < tids.length := by
  have hsubd : xs ⊆ tids.dedup := fun a ha => List.mem_dedup.2 (hsub a ha)
  have hle : xs.length ≤ tids.dedup.length :=
    (List.subperm_of_subset hx hsubd).length_le
  have hsl : tids.dedup.Sublist tids := List.dedup_sublist tids
  have hle2 : tids.dedup.length ≤ tids.length := hsl.length_le
  rcases Nat.lt_or_ge tids.dedup.length tids.length with hlt | hge
  · omega
  · exfalso
    have heq : tids.dedup = tids := hsl.eq_of_length (by omega)
    exact hdup (heq ▸ List.nodup_dedup tids)

theorem tools_query_length_lt {l : List Tool} (hids : (l.map Tool.id).Nodup)
    {tids : List Nat} (hdup : ¬ tids.Nodup) (tenant : String) :
    (l.filter (fun t => tids.contains t.id && t.tenant_id == tenant)).length
      < tids.length := by
  have hsubl : (l.filter (fun t => tids.contains t.id && t.tenant_id == tenant)).Sublist l :=
    List.filter_sublist l
  have hnd : ((l.filter (fun t => tids.contains t.id && t.tenant_id == tenant)).map Tool.id).Nodup :=
    List.Nodup.sublist (hsubl.map Tool.id) hids
  have hmem : ∀ a ∈ (l.filter (fun t => tids.contains t.id && t.tenant_id == tenant)).map Tool.id,
      a ∈ tids := by
    intro a ha
    rw [List.mem_map] at ha
    obtain ⟨t, htf, rfl⟩ := ha
    have hp := List.of_mem_filter htf
    simp only [Bool.and_eq_true] at hp
    exact List.elem_iff.1 hp.1
  have := nodup_subset_length_lt hnd hmem hdup
  simpa using this

/-- C10: agent create and agent update validate `tool_ids` by comparing the
number of matching rows (necessarily distinct, since primary keys are unique)
against the length of the submitted list, so a list repeating an id — even
one whose every element names an existing tool of the tenant — fails with the
"One or more tools not found" validation failure, and no agent is created or
modified. -/
theorem c10_duplicate_tool_ids (db : DB) (hids : (db.tools.map Tool.id).Nodup)
    (tenant : String) :
    (∀ ac : AgentCreate, ¬ ac.tool_ids.Nodup →
        create_agent ac tenant db = (Except.error ApiError.ValidationFailure, db)) ∧
    (∀ agent_id (upd : AgentUpdate) tids, upd.tool_ids = some tids → ¬ tids.Nodup →
        (∃ a ∈ db.agents, a.id = agent_id ∧ a.tenant_id = tenant) →
        update_agent agent_id upd tenant db
          = (Except.error ApiError.ValidationFailure, db)) := by
  constructor
  · intro ac hdup
    have hne : ac.tool_ids.isEmpty = false := by
      cases h : ac.tool_ids with
      | nil => exact absurd (h ▸ List.nodup_nil) hdup
      | cons a as => rfl
    simp only [create_agent, hne, Bool.false_eq_true, if_false]
    rw [if_pos (Nat.ne_of_lt (tools_query_length_lt hids hdup tenant))]
  · intro agent_id upd tids htids hdup hex
    obtain ⟨a, ha, haid, haten⟩ := hex
    have hsome : (db.agents.find? (fun x => x.id == agent_id && x.tenant_id == tenant)).isSome :=
      List.find?_isSome.2 ⟨a, ha, by simp [haid, haten]⟩
    cases hfind : db.agents.find? (fun x => x.id == agent_id && x.tenant_id == tenant) with
    | none => rw [hfind] at hsome; simp at hsome
    | some a0 =>
      simp only [update_agent, hfind, htids]
      rw [if_pos (Nat.ne_of_lt (tools_query_length_lt hids hdup tenant))]

theorem c10_duplicate_tool_ids_witness :
    create_agent acDup tenantOne dbA = (Except.error ApiError.ValidationFailure, dbA) :=
  (c10_duplicate_tool_ids dbA (by decide) tenantOne).1 acDup (by decide)

theorem checkStep_run_matches_check_rate_limit (tenant : String) (now : Int)
    (stored : List Int) :
    let lone := checkStep now (checkStep now (CheckPhase.ready, stored))
    (lone.1 = CheckPhase.finished true →
        (check_rate_limit tenant now [(tenant, stored)]).1 = Except.ok () ∧
        getTimestamps (check_rate_limit tenant now [(tenant, stored)]).2 tenant = lone.2) ∧
    (lone.1 = CheckPhase.finished false →
        (check_rate_limit tenant now [(tenant, stored)]).1
          = Except.error ApiError.RateLimitExceeded ∧
        (check_rate_limit tenant now [(tenant, stored)]).2 = [(tenant, stored)]) := by
  have hg : getTimestamps [(tenant, stored)] tenant = stored := by
    simp [getTimestamps, List.lookup]
  by_cases hc : RATE_LIMIT ≤ (stored.filter (fun t => now - t < TIME_WINDOW)).length
  · simp [checkStep, check_rate_limit, hg, hc, getTimestamps_set]
  · simp [checkStep, check_rate_limit, hg, hc, getTimestamps_set]

/-- C8 counterexample: with four in-window timestamps stored (a pruned count
of exactly `RATE_LIMIT - 1`), the unsynchronized read-modify-write of
utils.py admits the interleaving in which both concurrent checks of the same
tenant read the shared list before either writes it back, after which both
calls are admitted — refuting the asserted per-tenant serialization. -/
theorem c8_race_both_admitted :
    (([10, 20, 30, 40] : List Int).filter
        (fun t => (50 : Int) - t < TIME_WINDOW)).length = RATE_LIMIT - 1 ∧
    (stepB 50 (stepA 50 (stepB 50 (stepA 50
        { stored := [10, 20, 30, 40], callA := CheckPhase.ready,
          callB := CheckPhase.ready })))).callA = CheckPhase.finished true ∧
    (stepB 50 (stepA 50 (stepB 50 (stepA 50
        { stored := [10, 20, 30, 40], callA := CheckPhase.ready,
          callB := CheckPhase.ready })))).callB = CheckPhase.finished true := by
  refine ⟨by decide, by decide, by decide⟩

/-- C8 (amended): the source rate limiter performs its check-and-update with
no synchronization, so the check is not serialized per tenant: whenever the
tenant's stored sequence prunes to exactly `RATE_LIMIT - 1` entries, the
interleaving in which both concurrent checks read the shared list before
either writes it back admits both calls, over-admitting beyond the capacity
within one window; serialization is a requirement the spec imposes on
reimplementations, not a property of this code. -/
theorem c8_unsynchronized_over_admission (now : Int) (stored : List Int)
    (h : (stored.filter (fun t => now - t < TIME_WINDOW)).length = RATE_LIMIT - 1) :
    (stepB now (stepA now (stepB now (stepA now
        { stored := stored, callA := CheckPhase.ready,
          callB := CheckPhase.ready })))).callA = CheckPhase.finished true ∧
    (stepB now (stepA now (stepB now (stepA now
        { stored := stored, callA := CheckPhase.ready,
          callB := CheckPhase.ready })))).callB = CheckPhase.finished true := by
  have hlt : ¬ RATE_LIMIT ≤ (stored.filter (fun t => now - t < TIME_WINDOW)).length := by
    rw [h]
    decide
  simp [stepA, stepB, checkStep, hlt]

theorem c8_unsynchronized_over_admission_witness :
    (stepB 100 (stepA 100 (stepB 100 (stepA 100
        { stored := [90, 91, 92, 93], callA := CheckPhase.ready,
          callB := CheckPhase.ready })))).callA = CheckPhase.finished true ∧
    (stepB 100 (stepA 100 (stepB 100 (stepA 100
        { stored := [90, 91, 92, 93], callA := CheckPhase.ready,
          callB := CheckPhase.ready })))).callB = CheckPhase.finished true :=
  c8_unsynchronized_over_admission 100 [90, 91, 92, 93] (by decide)
